import Mathlib

/-!
Shallow embedding of the PlanByWeather recommendation engine
(Supabase Edge Function `recommend`): the rule evaluator, the
deterministic fallback generator, the OpenAI response mapping, and the
request handler, together with theorems checking the natural-language
specification against them.

JavaScript numbers are modelled as `JSNum`: a finite rational, `NaN`,
or a signed infinity.  The weather snapshot fields are finite rationals
because `fetchOpenWeather` rejects non-finite `tempC`/`windMps` with
`Number.isFinite` before constructing a snapshot.  Float rounding of
decimal literals is not modelled; none of the verified properties
depends on it.
-/

/-- A JavaScript number: finite (as an exact rational), `NaN`, or ±∞. -/
inductive JSNum where
  | finite (q : ℚ)
  | nan
  | inf
  | negInf
deriving DecidableEq, Repr

/-- Floor of a rational as an integer (`den` is always positive). -/
def ratFloor (q : ℚ) : ℤ := Int.fdiv q.num (q.den : ℤ)

/-- `Math.round`: half-way cases round toward +∞; `NaN` and infinities
pass through. -/
def JSNum.round : JSNum → JSNum
  | finite q => finite ((ratFloor (q + 1/2) : ℤ) : ℚ)
  | nan => nan
  | inf => inf
  | negInf => negInf

/-- `Math.min` on two arguments: any `NaN` argument wins. -/
def JSNum.min : JSNum → JSNum → JSNum
  | nan, _ => nan
  | _, nan => nan
  | finite a, finite b => finite (if a ≤ b then a else b)
  | inf, x => x
  | x, inf => x
  | negInf, _ => negInf
  | _, negInf => negInf

/-- `Math.max` on two arguments: any `NaN` argument wins. -/
def JSNum.max : JSNum → JSNum → JSNum
  | nan, _ => nan
  | _, nan => nan
  | finite a, finite b => finite (if a ≤ b then b else a)
  | negInf, x => x
  | x, negInf => x
  | inf, _ => inf
  | _, inf => inf

/-- `clampInt(n, min, max) = Math.max(min, Math.min(max, Math.round(n)))`
from the edge function.  Note that a `NaN` argument propagates through
`round`, `min` and `max` unchanged. -/
def clampInt (n lo hi : JSNum) : JSNum :=
  JSNum.max lo (JSNum.min hi (JSNum.round n))

/-- `n` is (the JS representation of) an integer in `[lo, hi]`. -/
def JSNum.isIntIn (n : JSNum) (lo hi : ℤ) : Prop :=
  ∃ k : ℤ, n = JSNum.finite (k : ℚ) ∧ lo ≤ k ∧ k ≤ hi

/-- `place` preference as declared: `"indoor" | "outdoor" | "either"`. -/
inductive PlacePref where
  | indoor
  | outdoor
  | either
deriving DecidableEq, Repr

/-- Normalized weather snapshot (the shape `fetchOpenWeather` returns;
its `Number.isFinite` guard justifies finite rational fields). -/
structure WeatherSnapshot where
  provider : String
  city : String
  tempC : ℚ
  windMps : ℚ
  condition : String
  isRainy : Bool
deriving DecidableEq, Repr

/-- A recommendation as produced by the engine.  `label` is kept as a
string so that claims about which label strings can occur are statable. -/
structure Recommendation where
  title : String
  reason : String
  label : String
  confidence : JSNum
deriving DecidableEq, Repr

structure RuleFlags where
  tooCold : Bool
  tooHot : Bool
  tooWindy : Bool
deriving DecidableEq, Repr

structure RuleHints where
  preferIndoor : Bool
  notes : List String
  flags : RuleFlags
deriving DecidableEq, Repr

/-- `ruleHintsFromWeather` from the edge function. -/
def ruleHintsFromWeather (w : WeatherSnapshot) : RuleHints :=
  let tooCold := decide (w.tempC < 8)
  let tooHot := decide (w.tempC > 32)
  let tooWindy := decide (w.windMps > 10)
  let preferIndoor := w.isRainy || tooCold || tooHot || tooWindy
  let notes :=
    (if w.isRainy then ["Yağış var: dış mekân önerilerini azalt."] else []) ++
    (if tooCold then ["Soğuk: uzun outdoor aktiviteleri azalt."] else []) ++
    (if tooHot then ["Sıcak: gölge/klimalı seçenekleri artır."] else []) ++
    (if tooWindy then ["Rüzgarlı: yürüyüş/park yerine indoor ağırlık ver."] else [])
  { preferIndoor := preferIndoor, notes := notes,
    flags := { tooCold := tooCold, tooHot := tooHot, tooWindy := tooWindy } }

/-- The fixed indoor candidate pool from `fallbackRecommendations`. -/
def indoorPool : List Recommendation :=
  [ { title := "Coffee + a book", reason := "Low effort, cozy, and weather-proof.",
      label := "indoor", confidence := JSNum.finite 74 },
    { title := "Museum / gallery visit",
      reason := "A solid 1–2 hour plan that doesn’t depend on the weather.",
      label := "indoor", confidence := JSNum.finite 70 },
    { title := "Cinema or a small event",
      reason := "One of the safest picks when it’s rainy or windy.",
      label := "indoor", confidence := JSNum.finite 68 },
    { title := "Gym / short home workout",
      reason := "If you want something active in a controlled environment.",
      label := "indoor", confidence := JSNum.finite 66 },
    { title := "Try a new recipe",
      reason := "A fun low-budget option you can do at home.",
      label := "indoor", confidence := JSNum.finite 62 } ]

/-- The fixed outdoor candidate pool from `fallbackRecommendations`. -/
def outdoorPool : List Recommendation :=
  [ { title := "Short walk + photos",
      reason := "If the weather is okay, it’s the simplest plan that feels good.",
      label := "outdoor", confidence := JSNum.finite 74 },
    { title := "Park coffee break", reason := "Keep it short to keep the risk low.",
      label := "outdoor", confidence := JSNum.finite 70 },
    { title := "Bike ride / waterfront loop",
      reason := "Great energy boost if the wind is not too strong.",
      label := "outdoor", confidence := JSNum.finite 66 },
    { title := "Neighborhood walk (new route)",
      reason := "Keep the scope small: 60–90 minutes.",
      label := "outdoor", confidence := JSNum.finite 64 },
    { title := "Market run + a small detour",
      reason := "Practical + a bit of fresh air.",
      label := "outdoor", confidence := JSNum.finite 60 } ]

/-- `fallbackRecommendations(w, place)` from the edge function.  `place`
has the declared type `PlacePref | undefined`, modelled as
`Option PlacePref` (`none` = `undefined`). -/
def fallbackRecommendations (w : WeatherSnapshot) (place : Option PlacePref) :
    List Recommendation :=
  let preferIndoor := (ruleHintsFromWeather w).preferIndoor
  let userTarget : Option PlacePref :=
    match place with
    | some p => if p ≠ PlacePref.either then some p else none
    | none => none
  let target : PlacePref :=
    if preferIndoor then PlacePref.indoor else userTarget.getD PlacePref.outdoor
  let base := (if target = PlacePref.indoor then indoorPool else outdoorPool).map
    (fun r => { r with confidence := clampInt r.confidence (JSNum.finite 0) (JSNum.finite 100) })
  if preferIndoor = true ∧ userTarget = some PlacePref.outdoor then
    let safetyNote :=
      if w.isRainy then "It’s rainy—bring a jacket/umbrella and keep it short."
      else "Weather is not ideal—keep it short and flexible."
    let extras : List Recommendation :=
      [ { title := "Quick errand walk", reason := safetyNote,
          label := "outdoor", confidence := JSNum.finite 45 },
        { title := "Short café hop nearby", reason := safetyNote,
          label := "outdoor", confidence := JSNum.finite 42 } ]
    (base ++ extras).take 7
  else base

/-- A JSON value as produced by `JSON.parse` / `res.json()`.  Numbers
are finite rationals (the JSON grammar has no `NaN`/`Infinity`; float
overflow of huge literals is not modelled). -/
inductive Json where
  | null
  | bool (b : Bool)
  | num (q : ℚ)
  | str (s : String)
  | arr (elems : List Json)
  | obj (fields : List (String × Json))

/-- Optional-chained property access `v?.k`: `undefined` (`none`) on
`null`, on primitives, and on absent keys. -/
def Json.getField : Json → String → Option Json
  | Json.obj fs, k => fs.lookup k
  | _, _ => none

/-- Plain property access `v.k`, which throws a `TypeError` when `v` is
`null` (the only non-object base reachable here; JSON has no
`undefined`).  On a non-null primitive it yields `undefined`. -/
def Json.getFieldE : Json → String → Except String (Option Json)
  | Json.null, _ => Except.error "TypeError: cannot read properties of null"
  | Json.obj fs, k => Except.ok (fs.lookup k)
  | _, _ => Except.ok none

/-- Nullish coalescing `v ?? dflt` applied to a possibly-absent value
(`none` = `undefined`). -/
def nullishOr (v : Option Json) (dflt : Json) : Json :=
  match v with
  | none => dflt
  | some Json.null => dflt
  | some x => x

/-- JavaScript truthiness of a JSON value. -/
def jsTruthy : Json → Bool
  | Json.null => false
  | Json.bool b => b
  | Json.num q => decide (q ≠ 0)
  | Json.str s => decide (s ≠ "")
  | Json.arr _ => true
  | Json.obj _ => true

/-- `String.prototype.trim()` (ASCII whitespace subset). -/
def jsTrim (s : String) : String :=
  String.mk (((s.data.dropWhile Char.isWhitespace).reverse.dropWhile
    Char.isWhitespace).reverse)

/-- `String.prototype.slice(0, n)` (modelled on code points; the
UTF-16 code-unit count of a string is at least its code-point count,
so the length bounds proved below hold in both readings). -/
def jsSlice (s : String) (n : Nat) : String := String.mk (s.data.take n)

def natOfDigits (cs : List Char) : Nat :=
  cs.foldl (fun n c => n * 10 + (c.toNat - 48)) 0

/-- Exponent-suffix part of a JS decimal literal. -/
def parseJSExp (mant : ℚ) (rest : List Char) : Option ℚ :=
  let (esign, rest2) :=
    match rest with
    | '-' :: r => ((-1 : ℤ), r)
    | '+' :: r => ((1 : ℤ), r)
    | _ => ((1 : ℤ), rest)
  let ds := rest2.takeWhile Char.isDigit
  let rem := rest2.dropWhile Char.isDigit
  if ds = [] ∨ rem ≠ [] then none
  else some (mant * (10 : ℚ) ^ (esign * (natOfDigits ds : ℤ)))

/-- A JS decimal number literal `[+-]? digits? (. digits?)? ([eE][+-]?digits)?`
(hex/octal/binary literal forms are not modelled; no verified property
touches them). -/
def parseJSDecimal (t : String) : Option ℚ :=
  let cs := t.data
  let (sign, cs1) :=
    match cs with
    | '-' :: r => ((-1 : ℚ), r)
    | '+' :: r => ((1 : ℚ), r)
    | _ => ((1 : ℚ), cs)
  let intPart := cs1.takeWhile Char.isDigit
  let cs2 := cs1.dropWhile Char.isDigit
  let (fracPart, cs3) :=
    match cs2 with
    | '.' :: r => (r.takeWhile Char.isDigit, r.dropWhile Char.isDigit)
    | _ => ([], cs2)
  if intPart = [] ∧ fracPart = [] then none
  else
    let mant : ℚ := sign * ((natOfDigits intPart : ℚ) +
      (natOfDigits fracPart : ℚ) / ((10 : ℚ) ^ fracPart.length))
    match cs3 with
    | [] => some mant
    | 'e' :: r => parseJSExp mant r
    | 'E' :: r => parseJSExp mant r
    | _ => none

/-- `ToNumber` on a string: trimmed empty string is `0`, `Infinity`
forms are infinite, a decimal literal is its value, anything else `NaN`. -/
def strToNumber (s : String) : JSNum :=
  let t := jsTrim s
  if t = "" then JSNum.finite 0
  else
    match parseJSDecimal t with
    | some q => JSNum.finite q
    | none =>
      if t = "Infinity" ∨ t = "+Infinity" then JSNum.inf
      else if t = "-Infinity" then JSNum.negInf
      else JSNum.nan

/-- Rendering of a number by `String(...)` (integer case exact;
non-integral rationals are approximated by their exact fraction text —
no verified property evaluates this case). -/
def ratToJSString (q : ℚ) : String :=
  if q.den = 1 then toString q.num else toString q

mutual

/-- `String(v)` on a JSON value (`Array.prototype.join` for arrays,
`[object Object]` for plain objects). -/
def jsString : Json → String
  | Json.null => "null"
  | Json.bool b => if b then "true" else "false"
  | Json.num q => ratToJSString q
  | Json.str s => s
  | Json.arr xs => String.intercalate "," (jsStringList xs)
  | Json.obj _ => "[object Object]"

/-- Element rendering for `join`: `null` elements render as empty. -/
def jsStringList : List Json → List String
  | [] => []
  | Json.null :: rest => "" :: jsStringList rest
  | j :: rest => jsString j :: jsStringList rest

end

/-- `Number(v)` on a JSON value (arrays coerce through their join
string, objects through `[object Object]`). -/
def jsToNumber : Json → JSNum
  | Json.null => JSNum.finite 0
  | Json.bool b => JSNum.finite (if b then 1 else 0)
  | Json.num q => JSNum.finite q
  | Json.str s => strToNumber s
  | Json.arr xs => strToNumber (jsString (Json.arr xs))
  | Json.obj fs => strToNumber (jsString (Json.obj fs))

/-- `arr?.[i]` / `str?.[i]` / `obj?.[i]` indexing (string indexing
modelled on code points). -/
def jsIndex (v : Json) (i : Nat) : Option Json :=
  match v with
  | Json.arr xs => xs[i]?
  | Json.str s => (s.data[i]?).map (fun c => Json.str (String.singleton c))
  | Json.obj fs => fs.lookup (toString i)
  | _ => none

/-- The text-payload resolution from `callOpenAI`:
`typeof data?.output_text === "string" ? data.output_text
 : data?.output?.[0]?.content?.[0]?.text`, then the
`typeof text !== "string"` check (`none` = that check fails). -/
def extractText (data : Json) : Option String :=
  match data.getField "output_text" with
  | some (Json.str s) => some s
  | _ =>
    match (((data.getField "output").bind (fun o => jsIndex o 0)).bind
        (fun x => x.getField "content")).bind (fun c => jsIndex c 0) with
    | some t =>
      match t.getField "text" with
      | some (Json.str s) => some s
      | _ => none
    | none => none

/-- The per-item mapping in `callOpenAI`:
`{ title: String(r.title ?? "").slice(0, 60),
   reason: String(r.reason ?? "").slice(0, 140),
   label: r.label === "outdoor" ? "outdoor" : "indoor",
   confidence: clampInt(Number(r.confidence ?? 50), 0, 100) }`.
The property reads `r.title` etc. throw a `TypeError` when the array
element `r` is `null` (the first read, `r.title`, throws first). -/
def mapRecItem (r : Json) : Except String Recommendation := do
  let titleF ← r.getFieldE "title"
  let reasonF ← r.getFieldE "reason"
  let labelF ← r.getFieldE "label"
  let confF ← r.getFieldE "confidence"
  Except.ok
    { title := jsSlice (jsString (nullishOr titleF (Json.str ""))) 60
      reason := jsSlice (jsString (nullishOr reasonF (Json.str ""))) 140
      label :=
        match labelF with
        | some (Json.str s) => if s = "outdoor" then "outdoor" else "indoor"
        | _ => "indoor"
      confidence := clampInt (jsToNumber (nullishOr confF (Json.num 50)))
        (JSNum.finite 0) (JSNum.finite 100) }

/-- `const recs = parsed?.recommendations; if (!Array.isArray(recs)) throw;
return recs.map(...)` — a callback throw propagates out of `map`. -/
def recsOf (parsed : Json) : Except String (List Recommendation) :=
  match parsed.getField "recommendations" with
  | some (Json.arr items) => items.mapM mapRecItem
  | _ => Except.error "OpenAI JSON missing recommendations array."

/-- The observable outcome of the `fetch` to the OpenAI endpoint:
`ok`/`status`/`statusText` of the response, `await res.text()` (read on
the error path) and `await res.json()` (read on the success path).  The
request payload `callOpenAI` builds (system prompt, schema, user
message) only determines what the provider sees, so it is absorbed into
this oracle. -/
structure ProviderHttp where
  ok : Bool
  status : Nat
  statusText : String
  textBody : String
  data : Json

/-- `callOpenAI` after the `fetch` returns: the result mapping of the
provider response into recommendations, or the thrown error.
`parseFn` is the `JSON.parse` oracle applied to the extracted text. -/
def callOpenAI (res : ProviderHttp) (parseFn : String → Except String Json) :
    Except String (List Recommendation) :=
  if res.ok = false then
    Except.error ("OpenAI error (" ++ toString res.status ++ "): " ++
      (if res.textBody = "" then res.statusText else res.textBody))
  else
    match extractText res.data with
    | none => Except.error "OpenAI response did not contain JSON text."
    | some text =>
      match parseFn text with
      | Except.error e => Except.error e
      | Except.ok parsed => recsOf parsed

/-- Server environment: `Deno.env.get(..) ?? ""` for the two keys. -/
structure Env where
  weatherKey : String
  openaiKey : String
deriving DecidableEq, Repr

structure RecommendResponse where
  city : String
  weather : WeatherSnapshot
  recommendations : List Recommendation
deriving DecidableEq, Repr

/-- The JSON body the handler responds with. -/
inductive RespBody where
  | error (msg : String)
  | success (resp : RecommendResponse)
deriving DecidableEq, Repr

/-- Observable outcome of one request: HTTP status, response body, and
which collaborators the control flow reached (`weatherFetched` records
that the `fetchOpenWeather` await was executed, `openaiCalled` that the
`callOpenAI` await was). -/
structure ServeOutcome where
  status : Nat
  body : RespBody
  weatherFetched : Bool
  openaiCalled : Bool
deriving DecidableEq, Repr

/-- `const city = String(body?.city || "").trim()`. -/
def cityOf (body : Json) : String :=
  jsTrim (jsString
    (match body.getField "city" with
     | some v => if jsTruthy v then v else Json.str ""
     | none => Json.str ""))

/-- `body.preferences?.place`, narrowed to the declared `PlacePref`
union.  A runtime value outside the union behaves in
`fallbackRecommendations` exactly like an absent place (a truthy
non-`"either"` junk value makes `userTarget` junk, which fails both the
`=== "indoor"` pool test and the `=== "outdoor"` special-case test,
selecting the outdoor pool just as `undefined` does; a falsy junk value
makes `userTarget` null directly), so the narrowing to `none` is
extensionally faithful. -/
def placeOf (body : Json) : Option PlacePref :=
  match (body.getField "preferences").bind (fun p => p.getField "place") with
  | some (Json.str "indoor") => some PlacePref.indoor
  | some (Json.str "outdoor") => some PlacePref.outdoor
  | some (Json.str "either") => some PlacePref.either
  | _ => none

/-- The request handler body (`Deno.serve` callback) for a `POST`
request, from `await req.json()` on.  `bodyResult` is the outcome of
parsing the request body, `weatherResult` the outcome of
`fetchOpenWeather` (an `Except.error` models the thrown error caught by
the outer `catch`), `prov`/`parseFn` the OpenAI collaborator oracles. -/
def serve (bodyResult : Except String Json) (env : Env)
    (weatherResult : Except String WeatherSnapshot)
    (prov : ProviderHttp) (parseFn : String → Except String Json) : ServeOutcome :=
  match bodyResult with
  | Except.error _ =>
    { status := 400, body := RespBody.error "Invalid JSON body.",
      weatherFetched := false, openaiCalled := false }
  | Except.ok body =>
    let city := cityOf body
    if city = "" then
      { status := 400, body := RespBody.error "city is required.",
        weatherFetched := false, openaiCalled := false }
    else if env.weatherKey = "" then
      { status := 500,
        body := RespBody.error "Missing WEATHER_API_KEY on the server (Edge Function env).",
        weatherFetched := false, openaiCalled := false }
    else
      match weatherResult with
      | Except.error msg =>
        { status := 500, body := RespBody.error msg,
          weatherFetched := true, openaiCalled := false }
      | Except.ok weather =>
        if env.openaiKey ≠ "" then
          match callOpenAI prov parseFn with
          | Except.ok recs =>
            { status := 200,
              body := RespBody.success
                { city := city, weather := weather, recommendations := recs },
              weatherFetched := true, openaiCalled := true }
          | Except.error _ =>
            { status := 200,
              body := RespBody.success
                { city := city, weather := weather,
                  recommendations := fallbackRecommendations weather (placeOf body) },
              weatherFetched := true, openaiCalled := true }
        else
          { status := 200,
            body := RespBody.success
              { city := city, weather := weather,
                recommendations := fallbackRecommendations weather (placeOf body) },
            weatherFetched := true, openaiCalled := false }

/-- C1: for every weather snapshot, `preferIndoor` holds iff at least
one of isRainy, tooCold (temperature < 8 °C), tooHot (temperature >
32 °C), tooWindy (wind speed > 10 m/s) holds — a pure disjunction with
no weighting. -/
theorem preferIndoor_iff_disjunction (w : WeatherSnapshot) :
    (ruleHintsFromWeather w).preferIndoor = true ↔
      (w.isRainy = true ∨ w.tempC < 8 ∨ w.tempC > 32 ∨ w.windMps > 10) := by
  simp [ruleHintsFromWeather, Bool.or_eq_true, decide_eq_true_eq, or_assoc]

/-- The warning reason text of the mixed special case. -/
def safetyNoteOf (w : WeatherSnapshot) : String :=
  if w.isRainy then "It’s rainy—bring a jacket/umbrella and keep it short."
  else "Weather is not ideal—keep it short and flexible."

/-- The two lower-confidence outdoor extras of the mixed special case. -/
def specialExtras (w : WeatherSnapshot) : List Recommendation :=
  [ { title := "Quick errand walk", reason := safetyNoteOf w,
      label := "outdoor", confidence := JSNum.finite 45 },
    { title := "Short café hop nearby", reason := safetyNoteOf w,
      label := "outdoor", confidence := JSNum.finite 42 } ]

theorem ratFloor_eq_floor (q : ℚ) : ratFloor q = ⌊q⌋ := by
  rw [ratFloor, Int.fdiv_eq_ediv _ (by exact_mod_cast Nat.zero_le q.den), Rat.floor_def]

/-- `clampInt` is the identity on a value already an integer in range. -/
theorem clampInt_id (q : ℚ) (h0 : (0:ℚ) ≤ q) (h100 : q ≤ 100)
    (hint : ((⌊q + 1/2⌋ : ℤ) : ℚ) = q) :
    clampInt (JSNum.finite q) (JSNum.finite 0) (JSNum.finite 100) = JSNum.finite q := by
  simp only [clampInt, JSNum.round, ratFloor_eq_floor, JSNum.min, JSNum.max, hint]
  split_ifs <;> first | rfl | (congr 1; linarith)

theorem clampFn_indoorPool :
    indoorPool.map (fun r =>
      { r with confidence := clampInt r.confidence (JSNum.finite 0) (JSNum.finite 100) }) =
      indoorPool := by
  have h74 := clampInt_id 74 (by norm_num) (by norm_num) (by norm_num)
  have h70 := clampInt_id 70 (by norm_num) (by norm_num) (by norm_num)
  have h68 := clampInt_id 68 (by norm_num) (by norm_num) (by norm_num)
  have h66 := clampInt_id 66 (by norm_num) (by norm_num) (by norm_num)
  have h62 := clampInt_id 62 (by norm_num) (by norm_num) (by norm_num)
  simp [indoorPool, h74, h70, h68, h66, h62]

theorem clampFn_outdoorPool :
    outdoorPool.map (fun r =>
      { r with confidence := clampInt r.confidence (JSNum.finite 0) (JSNum.finite 100) }) =
      outdoorPool := by
  have h74 := clampInt_id 74 (by norm_num) (by norm_num) (by norm_num)
  have h70 := clampInt_id 70 (by norm_num) (by norm_num) (by norm_num)
  have h66 := clampInt_id 66 (by norm_num) (by norm_num) (by norm_num)
  have h64 := clampInt_id 64 (by norm_num) (by norm_num) (by norm_num)
  have h60 := clampInt_id 60 (by norm_num) (by norm_num) (by norm_num)
  simp [outdoorPool, h74, h70, h66, h64, h60]

/-- Normal form of the fallback generator: indoor pool plus the two
extras exactly when the weather prefers indoor and the user explicitly
chose outdoor; otherwise one uniform pool. -/
theorem fallback_cases (w : WeatherSnapshot) (place : Option PlacePref) :
    fallbackRecommendations w place =
      if (ruleHintsFromWeather w).preferIndoor = true then
        (if place = some PlacePref.outdoor then indoorPool ++ specialExtras w
         else indoorPool)
      else
        (if place = some PlacePref.indoor then indoorPool else outdoorPool) := by
  have h74 := clampInt_id 74 (by norm_num) (by norm_num) (by norm_num)
  have h70 := clampInt_id 70 (by norm_num) (by norm_num) (by norm_num)
  have h68 := clampInt_id 68 (by norm_num) (by norm_num) (by norm_num)
  have h66 := clampInt_id 66 (by norm_num) (by norm_num) (by norm_num)
  have h64 := clampInt_id 64 (by norm_num) (by norm_num) (by norm_num)
  have h62 := clampInt_id 62 (by norm_num) (by norm_num) (by norm_num)
  have h60 := clampInt_id 60 (by norm_num) (by norm_num) (by norm_num)
  cases hPI : (ruleHintsFromWeather w).preferIndoor <;>
    rcases place with _ | (_ | _ | _) <;>
    simp [fallbackRecommendations, hPI, specialExtras, safetyNoteOf,
      indoorPool, outdoorPool, h74, h70, h68, h66, h64, h62, h60]

/-- C4: the fallback output is exactly 5 entries with one uniform label,
except when the weather prefers indoor and the user explicitly chose
outdoor: then it is exactly 7 entries — the 5 indoor pool entries
followed by exactly 2 extra outdoor entries with confidences 45 and 42
whose reason text depends on `isRainy` — and only that path mixes
labels. -/
theorem fallback_five_or_mixed_seven (w : WeatherSnapshot) (place : Option PlacePref) :
    if (ruleHintsFromWeather w).preferIndoor = true ∧ place = some PlacePref.outdoor then
      fallbackRecommendations w place = indoorPool ++
        [ { title := "Quick errand walk",
            reason := if w.isRainy then "It’s rainy—bring a jacket/umbrella and keep it short."
              else "Weather is not ideal—keep it short and flexible.",
            label := "outdoor", confidence := JSNum.finite 45 },
          { title := "Short café hop nearby",
            reason := if w.isRainy then "It’s rainy—bring a jacket/umbrella and keep it short."
              else "Weather is not ideal—keep it short and flexible.",
            label := "outdoor", confidence := JSNum.finite 42 } ] ∧
      (fallbackRecommendations w place).length = 7 ∧
      (∀ r ∈ (fallbackRecommendations w place).take 5, r.label = "indoor") ∧
      (∀ r ∈ (fallbackRecommendations w place).drop 5, r.label = "outdoor")
    else
      (fallbackRecommendations w place).length = 5 ∧
      ∃ l, ∀ r ∈ fallbackRecommendations w place, r.label = l := by
  by_cases h : (ruleHintsFromWeather w).preferIndoor = true ∧ place = some PlacePref.outdoor
  · rw [if_pos h]
    obtain ⟨h1, h2⟩ := h
    rw [fallback_cases, if_pos h1, if_pos h2]
    refine ⟨rfl, ?_, ?_, ?_⟩ <;>
      simp [indoorPool, specialExtras, safetyNoteOf]
  · rw [if_neg h, fallback_cases]
    by_cases h1 : (ruleHintsFromWeather w).preferIndoor = true
    · have h2 : ¬ place = some PlacePref.outdoor := fun hc => h ⟨h1, hc⟩
      rw [if_pos h1, if_neg h2]
      exact ⟨by simp [indoorPool], "indoor", by simp [indoorPool]⟩
    · rw [if_neg h1]
      by_cases h3 : place = some PlacePref.indoor
      · rw [if_pos h3]
        exact ⟨by simp [indoorPool], "indoor", by simp [indoorPool]⟩
      · rw [if_neg h3]
        exact ⟨by simp [outdoorPool], "outdoor", by simp [outdoorPool]⟩

/-- C5: the fallback base pool is selected by target = indoor when
`preferIndoor`, else the explicit user place, else outdoor; and with an
"either" preference under adverse weather the result is exactly the
all-indoor pool with no warning entries. -/
theorem fallback_base_pool_selection (w : WeatherSnapshot) (place : Option PlacePref) :
    ((fallbackRecommendations w place).take 5 =
      (if (ruleHintsFromWeather w).preferIndoor = true then indoorPool
       else
        match place with
        | some PlacePref.indoor => indoorPool
        | some PlacePref.outdoor => outdoorPool
        | some PlacePref.either => outdoorPool
        | none => outdoorPool)) ∧
    (place = some PlacePref.either → (ruleHintsFromWeather w).preferIndoor = true →
      fallbackRecommendations w place = indoorPool) := by
  constructor
  · rw [fallback_cases]
    by_cases h1 : (ruleHintsFromWeather w).preferIndoor = true
    · rw [if_pos h1, if_pos h1]
      by_cases h2 : place = some PlacePref.outdoor
      · rw [if_pos h2]
        simp [indoorPool, specialExtras]
      · rw [if_neg h2]
        simp [indoorPool]
    · rw [if_neg h1, if_neg h1]
      rcases place with _ | (_ | _ | _) <;> simp [indoorPool, outdoorPool]
  · intro hpl h1
    rw [fallback_cases, if_pos h1, hpl]
    simp

/-- C9: the fallback generator is pure and deterministic — identical
inputs give identical output lists, and the output depends on nothing
beyond its arguments (indeed only on the rule hints and the rain flag
of the snapshot argument). -/
theorem fallback_pure_deterministic (w w2 : WeatherSnapshot) (place : Option PlacePref)
    (hhints : ruleHintsFromWeather w = ruleHintsFromWeather w2)
    (hrain : w.isRainy = w2.isRainy) :
    fallbackRecommendations w place = fallbackRecommendations w place ∧
    fallbackRecommendations w place = fallbackRecommendations w2 place := by
  refine ⟨rfl, ?_⟩
  rw [fallback_cases, fallback_cases, hhints]
  simp [specialExtras, safetyNoteOf, hrain]

/-- Witness for C9 at a concrete rainy snapshot. -/
theorem fallback_pure_deterministic_witness :
    fallbackRecommendations ⟨"openweather", "Istanbul", 2, 3, "Rain", true⟩
        (some PlacePref.outdoor) =
      fallbackRecommendations ⟨"openweather", "Istanbul", 2, 3, "Rain", true⟩
        (some PlacePref.outdoor) :=
  (fallback_pure_deterministic ⟨"openweather", "Istanbul", 2, 3, "Rain", true⟩
    ⟨"openweather", "Istanbul", 2, 3, "Rain", true⟩ (some PlacePref.outdoor) rfl rfl).2

/-- The fallback generator always returns 5 or 7 entries. -/
theorem fallback_length (w : WeatherSnapshot) (place : Option PlacePref) :
    (fallbackRecommendations w place).length = 5 ∨
      (fallbackRecommendations w place).length = 7 := by
  rw [fallback_cases]
  split_ifs <;> simp [indoorPool, outdoorPool, specialExtras]

/-- C3: when the weather fetch succeeds and the model is configured,
any `callOpenAI` failure is absorbed: the handler responds 200 with
exactly the fallback output for that snapshot and place preference. -/
theorem model_failure_replaced_by_fallback (body : Json) (env : Env)
    (w : WeatherSnapshot) (prov : ProviderHttp)
    (parseFn : String → Except String Json) (e : String)
    (hcity : cityOf body ≠ "") (hwk : env.weatherKey ≠ "")
    (hok : env.openaiKey ≠ "")
    (herr : callOpenAI prov parseFn = Except.error e) :
    serve (Except.ok body) env (Except.ok w) prov parseFn =
      { status := 200,
        body := RespBody.success
          { city := cityOf body, weather := w,
            recommendations := fallbackRecommendations w (placeOf body) },
        weatherFetched := true, openaiCalled := true } := by
  simp [serve, hcity, hwk, hok, herr]

/-- Witness for C3: a provider 500 response falls back. -/
theorem model_failure_replaced_by_fallback_witness :
    serve (Except.ok (Json.obj [("city", Json.str "Istanbul")])) ⟨"wkey", "okey"⟩
        (Except.ok ⟨"openweather", "Istanbul", 2, 3, "Rain", true⟩)
        ⟨false, 500, "Internal Server Error", "boom", Json.null⟩
        (fun _ => Except.error "unused") =
      { status := 200,
        body := RespBody.success
          { city := cityOf (Json.obj [("city", Json.str "Istanbul")]),
            weather := ⟨"openweather", "Istanbul", 2, 3, "Rain", true⟩,
            recommendations :=
              fallbackRecommendations ⟨"openweather", "Istanbul", 2, 3, "Rain", true⟩
                (placeOf (Json.obj [("city", Json.str "Istanbul")])) },
        weatherFetched := true, openaiCalled := true } :=
  model_failure_replaced_by_fallback (Json.obj [("city", Json.str "Istanbul")])
    ⟨"wkey", "okey"⟩ ⟨"openweather", "Istanbul", 2, 3, "Rain", true⟩
    ⟨false, 500, "Internal Server Error", "boom", Json.null⟩
    (fun _ => Except.error "unused") "OpenAI error (500): boom"
    (by decide) (by decide) (by decide) rfl

/-- C8: a request whose city is empty or whitespace-only after trimming
is rejected with the InvalidRequest error before the weather
collaborator is ever called, and no recommendations are produced. -/
theorem empty_city_rejected_before_weather (body : Json) (env : Env)
    (weatherResult : Except String WeatherSnapshot) (prov : ProviderHttp)
    (parseFn : String → Except String Json) (s : String)
    (hcity : body.getField "city" = some (Json.str s)) (htrim : jsTrim s = "") :
    serve (Except.ok body) env weatherResult prov parseFn =
      { status := 400, body := RespBody.error "city is required.",
        weatherFetched := false, openaiCalled := false } := by
  have hc : cityOf body = "" := by
    rw [cityOf, hcity]
    by_cases hs : s = ""
    · subst hs; rfl
    · simp only [jsTruthy, hs, decide_not, if_pos]
      simpa [jsString] using htrim
  simp [serve, hc]

/-- Witness for C8: a whitespace-only city is rejected with 400. -/
theorem empty_city_rejected_before_weather_witness :
    serve (Except.ok (Json.obj [("city", Json.str "   ")])) ⟨"wkey", "okey"⟩
        (Except.ok ⟨"openweather", "x", 22, 2, "Clear", false⟩)
        ⟨true, 200, "OK", "", Json.null⟩ (fun _ => Except.error "unused") =
      { status := 400, body := RespBody.error "city is required.",
        weatherFetched := false, openaiCalled := false } :=
  empty_city_rejected_before_weather (Json.obj [("city", Json.str "   ")])
    ⟨"wkey", "okey"⟩ (Except.ok ⟨"openweather", "x", 22, 2, "Clear", false⟩)
    ⟨true, 200, "OK", "", Json.null⟩ (fun _ => Except.error "unused") "   "
    rfl rfl

/-- C2 counterexample: with the model configured and a provider reply
carrying an empty recommendations array, the handler succeeds (HTTP
200) with an empty recommendation list — fewer than 5 entries, with no
error returned. -/
theorem model_short_list_counterexample :
    serve (Except.ok (Json.obj [("city", Json.str "Istanbul")])) ⟨"wkey", "okey"⟩
        (Except.ok ⟨"openweather", "Istanbul", 22, 2, "Clear", false⟩)
        ⟨true, 200, "OK", "",
          Json.obj [("output_text", Json.str "\x7b\"recommendations\":[]\x7d")]⟩
        (fun _ => Except.ok (Json.obj [("recommendations", Json.arr [])])) =
      { status := 200,
        body := RespBody.success
          { city := "Istanbul",
            weather := ⟨"openweather", "Istanbul", 22, 2, "Clear", false⟩,
            recommendations := [] },
        weatherFetched := true, openaiCalled := true } ∧
    ¬ (5 ≤ ([] : List Recommendation).length) :=
  ⟨rfl, by decide⟩

/-- C2 amended: on the fallback path (no model key, or any model
failure) every successful response carries 5 or 7 recommendations; on
the model success path the list is whatever length the provider array
had, which the handler does not re-validate. -/
theorem response_full_on_fallback_path (body : Json) (env : Env)
    (w : WeatherSnapshot) (prov : ProviderHttp)
    (parseFn : String → Except String Json)
    (hcity : cityOf body ≠ "") (hwk : env.weatherKey ≠ "")
    (hfb : env.openaiKey = "" ∨ ∃ e, callOpenAI prov parseFn = Except.error e) :
    ∃ resp, (serve (Except.ok body) env (Except.ok w) prov parseFn).status = 200 ∧
      (serve (Except.ok body) env (Except.ok w) prov parseFn).body =
        RespBody.success resp ∧
      (resp.recommendations.length = 5 ∨ resp.recommendations.length = 7) := by
  refine ⟨⟨cityOf body, w, fallbackRecommendations w (placeOf body)⟩, ?_, ?_,
    fallback_length w (placeOf body)⟩ <;>
    rcases hfb with hko | ⟨e, herr⟩ <;>
    first
      | simp [serve, hcity, hwk, hko]
      | (by_cases hko : env.openaiKey = "" <;> simp [serve, hcity, hwk, hko, herr])

/-- Witness for the amended C2 with no model key configured. -/
theorem response_full_on_fallback_path_witness :
    ∃ resp,
      (serve (Except.ok (Json.obj [("city", Json.str "Istanbul")])) ⟨"wkey", ""⟩
          (Except.ok ⟨"openweather", "Istanbul", 22, 2, "Clear", false⟩)
          ⟨true, 200, "OK", "", Json.null⟩ (fun _ => Except.error "unused")).status =
        200 ∧
      (serve (Except.ok (Json.obj [("city", Json.str "Istanbul")])) ⟨"wkey", ""⟩
          (Except.ok ⟨"openweather", "Istanbul", 22, 2, "Clear", false⟩)
          ⟨true, 200, "OK", "", Json.null⟩ (fun _ => Except.error "unused")).body =
        RespBody.success resp ∧
      (resp.recommendations.length = 5 ∨ resp.recommendations.length = 7) :=
  response_full_on_fallback_path (Json.obj [("city", Json.str "Istanbul")])
    ⟨"wkey", ""⟩ ⟨"openweather", "Istanbul", 22, 2, "Clear", false⟩
    ⟨true, 200, "OK", "", Json.null⟩ (fun _ => Except.error "unused")
    (by decide) (by decide) (Or.inl rfl)

/-- `slice(0, n)` yields at most `n` characters. -/
theorem jsSlice_length_le (s : String) (n : Nat) : (jsSlice s n).length ≤ n := by
  show (s.data.take n).length ≤ n
  simp [List.length_take]

/-- C6 (code-bug evidence): a provider item whose confidence is the
non-numeric string "high" coerces to NaN, which `clampInt` propagates
unchanged through `Math.round`/`Math.min`/`Math.max`, so the engine
emits a recommendation whose confidence is not an integer in [0,100]. -/
theorem confidence_nan_escapes_clamp :
    recsOf (Json.obj [("recommendations", Json.arr [Json.obj
      [("title", Json.str "Stay in with a warm drink"),
       ("reason", Json.str "bad weather outside today"),
       ("label", Json.str "indoor"), ("confidence", Json.str "high")]])]) =
      Except.ok [{ title := "Stay in with a warm drink",
                   reason := "bad weather outside today",
                   label := "indoor", confidence := JSNum.nan }] ∧
    ¬ JSNum.nan.isIntIn 0 100 := by
  refine ⟨rfl, ?_⟩
  rintro ⟨k, hk, -, -⟩
  exact JSNum.noConfusion hk

/-- C7 counterexample: a structurally valid item whose label is the
string "sunny" is mapped to the label "indoor" — the model-provided
label string is not passed through unmodified. -/
theorem label_normalized_counterexample :
    mapRecItem (Json.obj
      [("title", Json.str "Walk by the sea"),
       ("reason", Json.str "sunny and calm right now"),
       ("label", Json.str "sunny"), ("confidence", Json.num 80)]) =
      Except.ok { title := "Walk by the sea",
                  reason := "sunny and calm right now",
                  label := "indoor", confidence := JSNum.finite 80 } ∧
    ("sunny" : String) ≠ "indoor" := by
  have h80 := clampInt_id 80 (by norm_num) (by norm_num) (by norm_num)
  refine ⟨?_, by decide⟩
  rw [← h80]
  rfl

/-- C7 amended: on a structurally valid response the output is the
pointwise per-item mapping — the fallback label-mixing special case is
never applied — and a provided label equal to one of the two declared
values is passed through unmodified; any other or missing label is
normalized to "indoor". -/
theorem model_labels_passthrough (items : List Json) (j : Json) (lab : String)
    (hmem : lab = "indoor" ∨ lab = "outdoor")
    (hlab : j.getField "label" = some (Json.str lab)) :
    recsOf (Json.obj [("recommendations", Json.arr items)]) =
      items.mapM mapRecItem ∧
    ∀ rec, mapRecItem j = Except.ok rec → rec.label = lab := by
  refine ⟨rfl, ?_⟩
  intro rec hrec
  rcases j with _ | b | q | s | xs | fs
  iterate 5 exact absurd hlab (by simp [Json.getField])
  simp only [Json.getField] at hlab
  have hl := congrArg (Except.map (fun r : Recommendation => r.label)) hrec
  have h2 : (Except.ok (match fs.lookup "label" with
      | some (Json.str s) => if s = "outdoor" then "outdoor" else "indoor"
      | _ => "indoor") : Except String String) = Except.ok rec.label := hl
  rw [hlab] at h2
  rcases hmem with h | h <;> subst h <;> simpa using h2.symm

/-- Witness for the amended C7 at a concrete "outdoor" item. -/
theorem model_labels_passthrough_witness :
    recsOf (Json.obj [("recommendations", Json.arr [])]) =
      ([] : List Json).mapM mapRecItem ∧
    ∀ rec, mapRecItem (Json.obj [("label", Json.str "outdoor")]) = Except.ok rec →
      rec.label = "outdoor" :=
  model_labels_passthrough [] (Json.obj [("label", Json.str "outdoor")]) "outdoor"
    (Or.inr rfl) rfl

/-- C10 counterexample: a `null` element of the recommendations array
makes the per-item mapping read `null.title`, throwing a TypeError —
a per-item condition does make the generator fail. -/
theorem null_item_fails_generator :
    recsOf (Json.obj [("recommendations", Json.arr [Json.null])]) =
      Except.error "TypeError: cannot read properties of null" := rfl

/-- C10 amended: for every non-null element the per-item mapping is
total — title at most 60 characters, reason at most 140, label one of
indoor/outdoor, a missing title or reason becomes the empty string, a
missing confidence defaults to 50 — while a null element throws,
failing the whole generator (recovered by the fallback path). -/
theorem mapRecItem_total_on_nonnull (r : Json) (h : r ≠ Json.null) :
    (∃ rec, mapRecItem r = Except.ok rec ∧
      rec.title.length ≤ 60 ∧ rec.reason.length ≤ 140 ∧
      (rec.label = "indoor" ∨ rec.label = "outdoor") ∧
      (r.getField "title" = none → rec.title = "") ∧
      (r.getField "reason" = none → rec.reason = "") ∧
      (r.getField "confidence" = none → rec.confidence = JSNum.finite 50)) ∧
    mapRecItem Json.null =
      Except.error "TypeError: cannot read properties of null" := by
  have h50 := clampInt_id 50 (by norm_num) (by norm_num) (by norm_num)
  refine ⟨?_, rfl⟩
  rcases r with _ | b | q | s | xs | fs
  · exact absurd rfl h
  case bool =>
    refine ⟨⟨"", "", "indoor", JSNum.finite 50⟩, by rw [← h50]; rfl, by decide, by decide,
      Or.inl rfl, fun _ => rfl, fun _ => rfl, fun _ => rfl⟩
  case num =>
    refine ⟨⟨"", "", "indoor", JSNum.finite 50⟩, by rw [← h50]; rfl, by decide, by decide,
      Or.inl rfl, fun _ => rfl, fun _ => rfl, fun _ => rfl⟩
  case str =>
    refine ⟨⟨"", "", "indoor", JSNum.finite 50⟩, by rw [← h50]; rfl, by decide, by decide,
      Or.inl rfl, fun _ => rfl, fun _ => rfl, fun _ => rfl⟩
  case arr =>
    refine ⟨⟨"", "", "indoor", JSNum.finite 50⟩, by rw [← h50]; rfl, by decide, by decide,
      Or.inl rfl, fun _ => rfl, fun _ => rfl, fun _ => rfl⟩
  case obj =>
    refine ⟨{ title := jsSlice (jsString (nullishOr (fs.lookup "title") (Json.str ""))) 60,
              reason := jsSlice (jsString (nullishOr (fs.lookup "reason") (Json.str ""))) 140,
              label := match fs.lookup "label" with
                | some (Json.str s) => if s = "outdoor" then "outdoor" else "indoor"
                | _ => "indoor",
              confidence := clampInt (jsToNumber (nullishOr (fs.lookup "confidence")
                (Json.num 50))) (JSNum.finite 0) (JSNum.finite 100) },
      rfl, jsSlice_length_le _ _, jsSlice_length_le _ _, ?_, ?_, ?_, ?_⟩
    · rcases hL : fs.lookup "label" with _ | v
      · simp [hL]
      · rcases v with _ | _ | _ | t | _ | _ <;> simp [hL]
        by_cases ht : t = "outdoor" <;> simp [ht]
    · intro hN
      simp only [Json.getField] at hN
      rw [hN]
      rfl
    · intro hN
      simp only [Json.getField] at hN
      rw [hN]
      rfl
    · intro hN
      simp only [Json.getField] at hN
      rw [hN]
      exact h50

/-- Witness for the amended C10 at a concrete non-null element. -/
theorem mapRecItem_total_on_nonnull_witness :
    (Json.bool true ≠ Json.null) ∧
    ((∃ rec, mapRecItem (Json.bool true) = Except.ok rec ∧
      rec.title.length ≤ 60 ∧ rec.reason.length ≤ 140 ∧
      (rec.label = "indoor" ∨ rec.label = "outdoor") ∧
      ((Json.bool true).getField "title" = none → rec.title = "") ∧
      ((Json.bool true).getField "reason" = none → rec.reason = "") ∧
      ((Json.bool true).getField "confidence" = none →
        rec.confidence = JSNum.finite 50)) ∧
    mapRecItem Json.null =
      Except.error "TypeError: cannot read properties of null") :=
  ⟨fun hc => Json.noConfusion hc,
   mapRecItem_total_on_nonnull (Json.bool true) (fun hc => Json.noConfusion hc)⟩

/-- Witness for C4: scenario C (cold rain, user wants outdoor) gives 7. -/
theorem fallback_five_or_mixed_seven_witness :
    (fallbackRecommendations ⟨"openweather", "Istanbul", 2, 3, "Rain", true⟩
      (some PlacePref.outdoor)).length = 7 := by
  have h := fallback_five_or_mixed_seven
    ⟨"openweather", "Istanbul", 2, 3, "Rain", true⟩ (some PlacePref.outdoor)
  rw [if_pos ⟨by decide, rfl⟩] at h
  exact h.2.1

/-- Witness for C5: scenario A ("either" under adverse weather) gives
the indoor pool. -/
theorem fallback_base_pool_selection_witness :
    fallbackRecommendations ⟨"openweather", "Istanbul", 2, 3, "Clear", false⟩
      (some PlacePref.either) = indoorPool :=
  (fallback_base_pool_selection ⟨"openweather", "Istanbul", 2, 3, "Clear", false⟩
    (some PlacePref.either)).2 rfl (by decide)
